import Mathlib

/-!
Verification of `src/utils/coldRoomCalculations.ts` (`calculateColdRoomLoad`).

Shallow embedding conventions:
* JavaScript numbers that flow through the arithmetic are modelled as exact
  rationals (`ℚ`).  The spec itself offers this exact-arithmetic reading
  ("exactly in an exact-arithmetic embedding").
* Every raw numeric input field of the TS interfaces is a string that the
  function runs through `parseFloat`; here the field is modelled as the parse
  outcome, `Option ℚ`, with `none` standing for a parse failure (`NaN`).
  Parse outcomes that are the IEEE infinities are not representable in this
  main model; the separate `JsNum` model below covers them for the claim
  about the normalizer.
* `x || d` on a JavaScript number-or-undefined is `jsOrDefault`: `NaN`,
  `undefined` and `0` are falsy and fall back to the default, every other
  number passes through.
* `Math.sqrt` is not a rational function; `calculateColdRoomLoad` takes it as
  an explicit function parameter `sqrt : ℚ → ℚ`, and theorems only ever
  assume properties that the real `Math.sqrt` has (strict monotonicity on
  nonnegatives).
* The lookup tables `THERMAL_DATA`, `PRODUCTS` and `STORAGE_FACTORS` are
  imported by the source from `@/constants/*`, which is not part of `src/`;
  they are modelled from the spec (§6) as read-only table structures passed
  to the function as parameters.
-/

namespace ColdRoom

/-- A JavaScript number as `parseFloat` can produce it: `NaN` (parse
failure), an infinity, or a finite value.  Used for the normalizer claim,
where the distinction between `NaN` and the infinities matters. -/
inductive JsNum where
  | nan : JsNum
  | posInf : JsNum
  | negInf : JsNum
  | num : ℚ → JsNum
deriving DecidableEq

/-- Source lines 40-60, one field: `parseFloat(raw) || default` over the full
range of `parseFloat` results.  JavaScript truthiness on numbers: `NaN`, `0`
and `-0` are falsy (replaced by the default), both infinities are truthy
(passed through unchanged). -/
def jsNumOrDefault (v : JsNum) (d : ℚ) : JsNum :=
  match v with
  | .nan => .num d
  | .posInf => .posInf
  | .negInf => .negInf
  | .num q => if q = 0 then .num d else .num q

/-- `x || d` where `x` is a JavaScript number-or-undefined already known to be
finite when present: `undefined`/`NaN` (= `none`) and `0` are falsy and give
the default, any other value passes through.  This is the normalization used
throughout `calculateColdRoomLoad` (source lines 40-60, 75, 79). -/
def jsOrDefault (v : Option ℚ) (d : ℚ) : ℚ :=
  match v with
  | none => d
  | some q => if q = 0 then d else q

/-- `s || d` on JavaScript strings: only the empty string is falsy
(source lines 46, the string-keyed defaults). -/
def jsStrOrDefault (s : String) (d : String) : String :=
  if s = "" then d else s

/-- TS `interface RoomData` (source lines 4-13).  The string fields that get
`parseFloat`-ed are modelled as their parse outcome; `insulationThickness` is
declared `number` in TS and can be `NaN`, hence also `Option ℚ`. -/
structure RoomData where
  length : Option ℚ
  width : Option ℚ
  height : Option ℚ
  doorWidth : Option ℚ
  doorHeight : Option ℚ
  doorOpenings : Option ℚ
  insulationType : String
  insulationThickness : Option ℚ
deriving DecidableEq

/-- TS `interface ConditionsData` (source lines 15-20). -/
structure ConditionsData where
  externalTemp : Option ℚ
  internalTemp : Option ℚ
  operatingHours : Option ℚ
  pullDownTime : Option ℚ
deriving DecidableEq

/-- TS `interface ProductData` (source lines 22-32). -/
structure ProductData where
  productType : String
  dailyLoad : Option ℚ
  incomingTemp : Option ℚ
  outgoingTemp : Option ℚ
  storageType : String
  numberOfPeople : Option ℚ
  workingHours : Option ℚ
  lightingWattage : Option ℚ
  equipmentLoad : Option ℚ
deriving DecidableEq

/-- Modelled from the spec: a record of the product-properties table
(`@/constants/productData`, not under `src/`).  Spec §3: "Product (external,
read-only record): density, storageEfficiency, specificHeatAbove (no
latent/frozen fields are used)". -/
structure Product where
  density : ℚ
  storageEfficiency : ℚ
  specificHeatAbove : ℚ
deriving DecidableEq

/-- Modelled from the spec: the `THERMAL_DATA` table
(`@/constants/thermalData`, not under `src/`).  Spec §3/§6: "uFactors mapping
\x7binsulationType -> \x7bthickness -> U-factor\x7d\x7d; airChangeRates (includes a
"coldRoom" entry); airDensity; airSpecificHeat; personHeatLoad;
safetyFactor".  The two-level optional indexing
`uFactors[type]?.[thickness]` collapses "outer key missing" and "inner key
missing" to the same `undefined`, so the two levels are modelled as one
curried partial map.  Only the `coldRoom` entry of `airChangeRates` is ever
read (source line 105). -/
structure ThermalData where
  uFactors : String → ℚ → Option ℚ
  coldRoomAirChangeRate : ℚ
  airDensity : ℚ
  airSpecificHeat : ℚ
  personHeatLoad : ℚ
  safetyFactor : ℚ

/-- Modelled from the spec: the `PRODUCTS` table (`@/constants/productData`,
not under `src/`).  Spec §6: `products: productKey -> \x7bdensity,
storageEfficiency, specificHeatAbove\x7d`; §4.2: lookup falls back to the
"General Food Items" record, so the spec requires that record to exist in the
table. -/
structure ProductTable where
  lookup : String → Option Product
  generalFoodItems : Product
  lookup_gfi : lookup "General Food Items" = some generalFoodItems

/-- Modelled from the spec: the `STORAGE_FACTORS` table
(`@/constants/productData`, not under `src/`).  Spec §6:
`storageFactors: storageKey -> number`; §4.2: lookup falls back to the
"Palletized" entry, so the spec requires that entry to exist. -/
structure StorageTable where
  lookup : String → Option ℚ
  palletized : ℚ
  lookup_palletized : lookup "Palletized" = some palletized

/-- Source lines 86-92: the `transmissionLoad` record. -/
structure TransmissionLoad where
  walls : ℚ
  ceiling : ℚ
  floor : ℚ
  total : ℚ
deriving DecidableEq

/-- Source lines 98-102: the `productLoad` record. -/
structure ProductLoad where
  sensible : ℚ
  latent : ℚ
  total : ℚ
deriving DecidableEq

/-- Source lines 109-115: the `internalLoads` record. -/
structure InternalLoads where
  people : ℚ
  lighting : ℚ
  equipment : ℚ
  total : ℚ
deriving DecidableEq

/-- Source line 130: `dimensions`. -/
structure Dimensions where
  length : ℚ
  width : ℚ
  height : ℚ
deriving DecidableEq

/-- Source line 131: `doorDimensions`. -/
structure DoorDimensions where
  width : ℚ
  height : ℚ
deriving DecidableEq

/-- Source lines 132-137: `areas`. -/
structure Areas where
  wall : ℚ
  ceiling : ℚ
  floor : ℚ
  door : ℚ
deriving DecidableEq

/-- Source lines 139-144: `storageCapacity`.  `storageType` echoes the raw
input string. -/
structure StorageCapacity where
  maximum : ℚ
  utilization : ℚ
  storageFactor : ℚ
  storageType : String
deriving DecidableEq

/-- Source lines 147-151: `construction`. -/
structure Construction where
  type : String
  thickness : ℚ
  uFactor : ℚ
deriving DecidableEq

/-- Source lines 153-159: `productInfo`.  `type` echoes the raw input
string. -/
structure ProductInfo where
  type : String
  mass : ℚ
  incomingTemp : ℚ
  outgoingTemp : ℚ
  properties : Product
deriving DecidableEq

/-- The object returned by `calculateColdRoomLoad` (source lines 129-170). -/
structure LoadResult where
  dimensions : Dimensions
  doorDimensions : DoorDimensions
  areas : Areas
  volume : ℚ
  storageCapacity : StorageCapacity
  temperatureDifference : ℚ
  pullDownTime : ℚ
  construction : Construction
  transmissionLoad : TransmissionLoad
  productInfo : ProductInfo
  productLoad : ProductLoad
  airChangeRate : ℚ
  airInfiltrationLoad : ℚ
  internalLoads : InternalLoads
  doorLoad : ℚ
  doorOpenings : ℚ
  workingHours : ℚ
  totalLoad : ℚ
  totalLoadWithSafety : ℚ
  refrigerationTons : ℚ
deriving DecidableEq

/-- `export function calculateColdRoomLoad` (source lines 34-171), translated
line by line.  The module-level imports become the table parameters; `sqrt`
stands for `Math.sqrt` (source line 118).  Rational division is total
(`x / 0 = 0` in `ℚ`); the only divisions whose divisor can be zero are
`storageUtilization` (divisor `maxStorageCapacity`, source line 83, which
JavaScript would send to `±Infinity`/`NaN` — no claim touches its value) —
every other divisor is a nonzero literal or `pullDownTime * 3.6` with
`pullDownTime` normalized away from `0`. -/
def calculateColdRoomLoad (sqrt : ℚ → ℚ) (THERMAL_DATA : ThermalData)
    (PRODUCTS : ProductTable) (STORAGE_FACTORS : StorageTable)
    (roomData : RoomData) (conditionsData : ConditionsData)
    (productData : ProductData) : LoadResult :=
  -- Parse input values with cold room defaults (lines 40-60)
  let length := jsOrDefault roomData.length 5
  let width := jsOrDefault roomData.width 4
  let height := jsOrDefault roomData.height 3
  let doorWidth := jsOrDefault roomData.doorWidth 1.2
  let doorHeight := jsOrDefault roomData.doorHeight 2.1
  let doorOpenings := jsOrDefault roomData.doorOpenings 20
  let insulationType := jsStrOrDefault roomData.insulationType "PUF"
  let insulationThickness := jsOrDefault roomData.insulationThickness 100
  let externalTemp := jsOrDefault conditionsData.externalTemp 35
  let internalTemp := jsOrDefault conditionsData.internalTemp 4
  let operatingHours := jsOrDefault conditionsData.operatingHours 24
  let pullDownTime := jsOrDefault conditionsData.pullDownTime 6
  let dailyLoad := jsOrDefault productData.dailyLoad 2000
  let incomingTemp := jsOrDefault productData.incomingTemp 25
  let outgoingTemp := jsOrDefault productData.outgoingTemp 4
  let numberOfPeople := jsOrDefault productData.numberOfPeople 2
  let workingHours := jsOrDefault productData.workingHours 6
  let lightingWattage := jsOrDefault productData.lightingWattage 200
  let equipmentLoad := jsOrDefault productData.equipmentLoad 500
  -- Calculate areas and volume (lines 63-67)
  let wallArea := 2 * (length + width) * height
  let ceilingArea := length * width
  let floorArea := length * width
  let volume := length * width * height
  let doorArea := doorWidth * doorHeight
  -- Temperature difference (line 70)
  let temperatureDifference := externalTemp - internalTemp
  -- Get U-factor from construction data (lines 73-75):
  -- `THERMAL_DATA.uFactors[insulationTypeKey]?.[thickness] || 0.25`
  let uFactor := jsOrDefault (THERMAL_DATA.uFactors insulationType insulationThickness) 0.25
  -- Get product and storage data (lines 78-79).  A record is always truthy,
  -- so `PRODUCTS[k] || PRODUCTS["General Food Items"]` falls back only on a
  -- missing key; a storage factor is a number, so a present-but-zero factor
  -- is falsy and also falls back to `STORAGE_FACTORS["Palletized"]`.
  let product := (PRODUCTS.lookup productData.productType).getD PRODUCTS.generalFoodItems
  let storageFactor :=
    match STORAGE_FACTORS.lookup productData.storageType with
    | none => STORAGE_FACTORS.palletized
    | some v => if v = 0 then STORAGE_FACTORS.palletized else v
  -- Calculate storage capacity (lines 82-83)
  let maxStorageCapacity := volume * product.density * product.storageEfficiency * storageFactor
  let storageUtilization := dailyLoad / maxStorageCapacity * 100
  -- 1. Transmission Load Calculations (lines 86-92)
  let transmissionWalls := uFactor * wallArea * temperatureDifference / 1000
  let transmissionCeiling := uFactor * ceilingArea * temperatureDifference / 1000
  let transmissionFloor := uFactor * floorArea * temperatureDifference / 1000
  let transmissionTotal := transmissionWalls + transmissionCeiling + transmissionFloor
  -- 2. Product Load Calculations (lines 96-102)
  let sensibleHeat := dailyLoad * product.specificHeatAbove * (incomingTemp - outgoingTemp) / (pullDownTime * 3.6)
  -- 3. Air Infiltration Load (lines 105-106)
  let airChangeRate := THERMAL_DATA.coldRoomAirChangeRate
  let airInfiltrationLoad := volume * THERMAL_DATA.airDensity * THERMAL_DATA.airSpecificHeat * temperatureDifference * airChangeRate / 3.6
  -- 4. Internal Loads (lines 109-115)
  let internalPeople := numberOfPeople * THERMAL_DATA.personHeatLoad * (workingHours / 24)
  let internalLighting := lightingWattage * (operatingHours / 24) / 1000
  let internalEquipment := equipmentLoad / 1000
  let internalTotal := internalPeople + internalLighting + internalEquipment
  -- 5. Door Opening Load (line 118)
  let doorLoad := doorOpenings * doorArea * 3.0 * sqrt temperatureDifference / 24 / 1000
  -- 6. Total Load Calculation (line 121)
  let totalLoad := transmissionTotal + sensibleHeat + airInfiltrationLoad + internalTotal + doorLoad
  -- 7. Apply Safety Factor (line 124)
  let totalLoadWithSafety := totalLoad * THERMAL_DATA.safetyFactor
  -- 8. Convert to Tons of Refrigeration (line 127)
  let refrigerationTons := totalLoadWithSafety / 3.517
  -- Return object (lines 129-170)
  { dimensions := { length := length, width := width, height := height }
    doorDimensions := { width := doorWidth, height := doorHeight }
    areas := { wall := wallArea, ceiling := ceilingArea, floor := floorArea, door := doorArea }
    volume := volume
    storageCapacity :=
      { maximum := maxStorageCapacity
        utilization := storageUtilization
        storageFactor := storageFactor
        storageType := productData.storageType }
    temperatureDifference := temperatureDifference
    pullDownTime := pullDownTime
    construction :=
      { type := insulationType
        thickness := insulationThickness
        uFactor := uFactor }
    transmissionLoad :=
      { walls := transmissionWalls
        ceiling := transmissionCeiling
        floor := transmissionFloor
        total := transmissionTotal }
    productInfo :=
      { type := productData.productType
        mass := dailyLoad
        incomingTemp := incomingTemp
        outgoingTemp := outgoingTemp
        properties := product }
    productLoad := { sensible := sensibleHeat, latent := 0, total := sensibleHeat }
    airChangeRate := airChangeRate
    airInfiltrationLoad := airInfiltrationLoad
    internalLoads :=
      { people := internalPeople
        lighting := internalLighting
        equipment := internalEquipment
        total := internalTotal }
    doorLoad := doorLoad
    doorOpenings := doorOpenings
    workingHours := workingHours
    totalLoad := totalLoad
    totalLoadWithSafety := totalLoadWithSafety
    refrigerationTons := refrigerationTons }

/-! ### Concrete table instances and inputs for evaluation

The spec fixes the shape of the three tables but (apart from the lookup
fallbacks) none of their numeric values, so concrete evaluations use nominal
physically-positive sample values.  Theorems about the program are stated
over arbitrary tables; the samples only instantiate them. -/

/-- A sample product record (nominal values; the spec fixes none). -/
def sampleProduct : Product :=
  { density := 400, storageEfficiency := 0.65, specificHeatAbove := 3.7 }

/-- A sample thermal table.  The one value the spec does pin down is that the
default-derived U-factor resolution for PUF/100 yields 0.25 (§8). -/
def sampleThermal : ThermalData :=
  { uFactors := fun t th => if t = "PUF" ∧ th = 100 then some 0.25 else none
    coldRoomAirChangeRate := 4
    airDensity := 1.2
    airSpecificHeat := 1.006
    personHeatLoad := 0.27
    safetyFactor := 1.2 }

/-- A sample product table containing only the spec-required
"General Food Items" entry. -/
def samplePT : ProductTable :=
  { lookup := fun k => if k = "General Food Items" then some sampleProduct else none
    generalFoodItems := sampleProduct
    lookup_gfi := by simp }

/-- A sample storage-factor table containing only the spec-required
"Palletized" entry. -/
def sampleST : StorageTable :=
  { lookup := fun k => if k = "Palletized" then some 0.85 else none
    palletized := 0.85
    lookup_palletized := by simp }

/-- `RoomData` with every field omitted/unparseable (empty strings parse to
`NaN`, the TS `number` field is `NaN`). -/
def emptyRoom : RoomData :=
  { length := none, width := none, height := none, doorWidth := none
    doorHeight := none, doorOpenings := none, insulationType := ""
    insulationThickness := none }

/-- `ConditionsData` with every field omitted/unparseable. -/
def emptyConditions : ConditionsData :=
  { externalTemp := none, internalTemp := none, operatingHours := none
    pullDownTime := none }

/-- `ProductData` with every field omitted/unparseable. -/
def emptyProductData : ProductData :=
  { productType := "", dailyLoad := none, incomingTemp := none
    outgoingTemp := none, storageType := "", numberOfPeople := none
    workingHours := none, lightingWattage := none, equipmentLoad := none }

/-! ### Claims -/

/-- C1: for every input, the `totalLoad` field of the result of
`calculateColdRoomLoad` equals the sum of the five category totals it also
returns: `transmissionLoad.total + productLoad.total + airInfiltrationLoad +
internalLoads.total + doorLoad`, exactly, in this exact-arithmetic
embedding. -/
theorem totalLoad_eq_sum_of_categories (sqrt : ℚ → ℚ) (th : ThermalData)
    (pt : ProductTable) (st : StorageTable) (r : RoomData)
    (c : ConditionsData) (p : ProductData) :
    (calculateColdRoomLoad sqrt th pt st r c p).totalLoad =
      (calculateColdRoomLoad sqrt th pt st r c p).transmissionLoad.total
      + (calculateColdRoomLoad sqrt th pt st r c p).productLoad.total
      + (calculateColdRoomLoad sqrt th pt st r c p).airInfiltrationLoad
      + (calculateColdRoomLoad sqrt th pt st r c p).internalLoads.total
      + (calculateColdRoomLoad sqrt th pt st r c p).doorLoad := rfl

/-- C2: for every input, `totalLoadWithSafety = totalLoad × safetyFactor`
(the `safetyFactor` constant of the thermal table) and
`refrigerationTons = totalLoadWithSafety / 3.517`, as exact arithmetic
identities over the returned fields. -/
theorem safety_and_tons_identities (sqrt : ℚ → ℚ) (th : ThermalData)
    (pt : ProductTable) (st : StorageTable) (r : RoomData)
    (c : ConditionsData) (p : ProductData) :
    (calculateColdRoomLoad sqrt th pt st r c p).totalLoadWithSafety =
      (calculateColdRoomLoad sqrt th pt st r c p).totalLoad * th.safetyFactor
    ∧ (calculateColdRoomLoad sqrt th pt st r c p).refrigerationTons =
      (calculateColdRoomLoad sqrt th pt st r c p).totalLoadWithSafety / 3.517 :=
  ⟨rfl, rfl⟩

/-- C7: for every input, the returned `productLoad` has `latent` exactly `0`,
`sensible = (dailyLoad × product.specificHeatAbove × (incomingTemp −
outgoingTemp)) / (pullDownTime × 3.6)` (all factors being the normalized
values the result itself reports), and `total = sensible`. -/
theorem productLoad_sensible_only (sqrt : ℚ → ℚ) (th : ThermalData)
    (pt : ProductTable) (st : StorageTable) (r : RoomData)
    (c : ConditionsData) (p : ProductData) :
    (calculateColdRoomLoad sqrt th pt st r c p).productLoad.latent = 0
    ∧ (calculateColdRoomLoad sqrt th pt st r c p).productLoad.sensible =
      (calculateColdRoomLoad sqrt th pt st r c p).productInfo.mass
        * (calculateColdRoomLoad sqrt th pt st r c p).productInfo.properties.specificHeatAbove
        * ((calculateColdRoomLoad sqrt th pt st r c p).productInfo.incomingTemp
           - (calculateColdRoomLoad sqrt th pt st r c p).productInfo.outgoingTemp)
        / ((calculateColdRoomLoad sqrt th pt st r c p).pullDownTime * 3.6)
    ∧ (calculateColdRoomLoad sqrt th pt st r c p).productLoad.total =
      (calculateColdRoomLoad sqrt th pt st r c p).productLoad.sensible :=
  ⟨rfl, rfl, rfl⟩

/-- C8: `calculateColdRoomLoad` is total — for every input (arbitrary parse
failures, negative temperature differences included) it returns a complete
`LoadResult`; in this embedding it is a computable total function into the
`LoadResult` structure, whose every field is a rational or structural
value. -/
theorem calculateColdRoomLoad_total (sqrt : ℚ → ℚ) (th : ThermalData)
    (pt : ProductTable) (st : StorageTable) (r : RoomData)
    (c : ConditionsData) (p : ProductData) :
    ∃ result : LoadResult, calculateColdRoomLoad sqrt th pt st r c p = result :=
  ⟨_, rfl⟩

/-- C9: `calculateColdRoomLoad` is deterministic — two calls with identical
input records (and the same lookup tables and `Math.sqrt`) return identical
`LoadResult` values. -/
theorem calculateColdRoomLoad_deterministic (sqrt : ℚ → ℚ) (th : ThermalData)
    (pt : ProductTable) (st : StorageTable) (r₁ r₂ : RoomData)
    (c₁ c₂ : ConditionsData) (p₁ p₂ : ProductData)
    (hr : r₁ = r₂) (hc : c₁ = c₂) (hp : p₁ = p₂) :
    calculateColdRoomLoad sqrt th pt st r₁ c₁ p₁ =
      calculateColdRoomLoad sqrt th pt st r₂ c₂ p₂ := by
  subst hr; subst hc; subst hp; rfl

/-- Witness for C9 at a concrete input. -/
theorem calculateColdRoomLoad_deterministic_witness :
    calculateColdRoomLoad (fun q => q) sampleThermal samplePT sampleST
        emptyRoom emptyConditions emptyProductData =
      calculateColdRoomLoad (fun q => q) sampleThermal samplePT sampleST
        emptyRoom emptyConditions emptyProductData :=
  calculateColdRoomLoad_deterministic (fun q => q) sampleThermal samplePT
    sampleST emptyRoom emptyRoom emptyConditions emptyConditions
    emptyProductData emptyProductData rfl rfl rfl

/-- C10: the result echoes the raw, un-normalized input strings in
`storageCapacity.storageType` and `productInfo.type`, for every input —
in particular also when those keys missed the tables and the default
records were used for the numeric computation. -/
theorem result_echoes_raw_keys (sqrt : ℚ → ℚ) (th : ThermalData)
    (pt : ProductTable) (st : StorageTable) (r : RoomData)
    (c : ConditionsData) (p : ProductData) :
    (calculateColdRoomLoad sqrt th pt st r c p).storageCapacity.storageType =
      p.storageType
    ∧ (calculateColdRoomLoad sqrt th pt st r c p).productInfo.type =
      p.productType :=
  ⟨rfl, rfl⟩

/-- C3, counterexample: the claim says a parsed non-finite value is replaced
by the default, but `parseFloat` can return `Infinity` (e.g. on the raw
string `"Infinity"`), and `Infinity` is truthy in JavaScript, so
`parseFloat(x) || 5.0` (source line 40) passes it through instead of
substituting the default `5`. -/
theorem normalizer_keeps_infinity :
    jsNumOrDefault JsNum.posInf 5 = JsNum.posInf
    ∧ jsNumOrDefault JsNum.posInf 5 ≠ JsNum.num 5 :=
  ⟨rfl, by simp [jsNumOrDefault]⟩

/-- C3, amended: the normalizer substitutes the default exactly when parsing
fails (`NaN`) or when the parsed value is exactly `0`; any other parsed
value passes through unchanged — including the non-finite infinities, which
are truthy. -/
theorem jsNumOrDefault_behavior (d q : ℚ) (hq : q ≠ 0) :
    jsNumOrDefault JsNum.nan d = JsNum.num d
    ∧ jsNumOrDefault (JsNum.num 0) d = JsNum.num d
    ∧ jsNumOrDefault (JsNum.num q) d = JsNum.num q
    ∧ jsNumOrDefault JsNum.posInf d = JsNum.posInf
    ∧ jsNumOrDefault JsNum.negInf d = JsNum.negInf :=
  ⟨rfl, by simp [jsNumOrDefault], by simp [jsNumOrDefault, hq], rfl, rfl⟩

/-- Witness for the amended C3 at `d = 5`, `q = 7`. -/
theorem jsNumOrDefault_behavior_witness :
    jsNumOrDefault JsNum.nan 5 = JsNum.num 5
    ∧ jsNumOrDefault (JsNum.num 0) 5 = JsNum.num 5
    ∧ jsNumOrDefault (JsNum.num 7) 5 = JsNum.num 7
    ∧ jsNumOrDefault JsNum.posInf 5 = JsNum.posInf
    ∧ jsNumOrDefault JsNum.negInf 5 = JsNum.negInf :=
  jsNumOrDefault_behavior 5 7 (by norm_num)

/-- C5: with every field of all three input records omitted/invalid, the
function returns the default-derived result: dimensions 5×4×3 and U-factor
0.25.  The thermal table is not under `src/`; per the spec (§8) the
PUF/100mm entry resolves to 0.25, taken here as the hypothesis that the
modelled table holds that entry. -/
theorem default_inputs_default_result (sqrt : ℚ → ℚ) (th : ThermalData)
    (pt : ProductTable) (st : StorageTable)
    (hpuf : th.uFactors "PUF" 100 = some 0.25) :
    (calculateColdRoomLoad sqrt th pt st emptyRoom emptyConditions
        emptyProductData).dimensions = { length := 5, width := 4, height := 3 }
    ∧ (calculateColdRoomLoad sqrt th pt st emptyRoom emptyConditions
        emptyProductData).construction.uFactor = 0.25 := by
  constructor
  · rfl
  · show jsOrDefault (th.uFactors "PUF" 100) 0.25 = 0.25
    rw [hpuf]
    simp [jsOrDefault]

/-- Witness for C5 at the sample thermal table. -/
theorem default_inputs_default_result_witness :
    (calculateColdRoomLoad (fun q => q) sampleThermal samplePT sampleST
        emptyRoom emptyConditions emptyProductData).dimensions =
      { length := 5, width := 4, height := 3 }
    ∧ (calculateColdRoomLoad (fun q => q) sampleThermal samplePT sampleST
        emptyRoom emptyConditions emptyProductData).construction.uFactor = 0.25 :=
  default_inputs_default_result (fun q => q) sampleThermal samplePT sampleST
    (by simp [sampleThermal])

/-- C4, counterexample: with an unrecognized `productType`, the numeric
computation falls back to the "General Food Items" record, but the returned
`productInfo.type` echoes the raw key (source line 154), so the output is
*not* identical in every field to the output for
`productType = "General Food Items"`. -/
theorem unknown_product_not_identical :
    samplePT.lookup "Mystery Goo" = none
    ∧ (calculateColdRoomLoad (fun q => q) sampleThermal samplePT sampleST
          emptyRoom emptyConditions
          { emptyProductData with productType := "Mystery Goo" }).productInfo.type ≠
      (calculateColdRoomLoad (fun q => q) sampleThermal samplePT sampleST
          emptyRoom emptyConditions
          { emptyProductData with productType := "General Food Items" }).productInfo.type := by
  constructor
  · simp [samplePT]
  · show "Mystery Goo" ≠ "General Food Items"
    simp

/-- C4, amended: for an unrecognized `productType`, the output is identical
to the output for `"General Food Items"` in every field *except*
`productInfo.type`, which echoes the raw key. -/
theorem unknown_product_falls_back_to_gfi (sqrt : ℚ → ℚ) (th : ThermalData)
    (pt : ProductTable) (st : StorageTable) (r : RoomData)
    (c : ConditionsData) (p : ProductData)
    (h : pt.lookup p.productType = none) :
    calculateColdRoomLoad sqrt th pt st r c p =
      { calculateColdRoomLoad sqrt th pt st r c
          { p with productType := "General Food Items" } with
        productInfo :=
          { (calculateColdRoomLoad sqrt th pt st r c
              { p with productType := "General Food Items" }).productInfo with
            type := p.productType } } := by
  have hgfi := pt.lookup_gfi
  simp only [calculateColdRoomLoad, h, hgfi, Option.getD_none, Option.getD_some]

/-- Witness for the amended C4 at a concrete unrecognized key. -/
theorem unknown_product_falls_back_to_gfi_witness :
    calculateColdRoomLoad (fun q => q) sampleThermal samplePT sampleST
        emptyRoom emptyConditions
        { emptyProductData with productType := "Mystery Goo" } =
      { calculateColdRoomLoad (fun q => q) sampleThermal samplePT sampleST
          emptyRoom emptyConditions
          { emptyProductData with productType := "General Food Items" } with
        productInfo :=
          { (calculateColdRoomLoad (fun q => q) sampleThermal samplePT sampleST
              emptyRoom emptyConditions
              { emptyProductData with productType := "General Food Items" }).productInfo with
            type := "Mystery Goo" } } :=
  unknown_product_falls_back_to_gfi (fun q => q) sampleThermal samplePT sampleST
    emptyRoom emptyConditions
    { emptyProductData with productType := "Mystery Goo" } (by simp [samplePT])

/-- Arithmetic helper: a three-term transmission sum with a common positive
coefficient is strictly monotone in the temperature difference. -/
lemma sum3_mul_lt (u a b c d₁ d₂ : ℚ) (hc : 0 < u * (a + b + c))
    (hd : d₁ < d₂) :
    u * a * d₁ / 1000 + u * b * d₁ / 1000 + u * c * d₁ / 1000
      < u * a * d₂ / 1000 + u * b * d₂ / 1000 + u * c * d₂ / 1000 := by
  have h1 : ∀ d : ℚ, u * a * d / 1000 + u * b * d / 1000 + u * c * d / 1000
      = u * (a + b + c) / 1000 * d := by intro d; ring
  rw [h1, h1]
  exact mul_lt_mul_of_pos_left hd (div_pos hc (by norm_num))

/-- Arithmetic helper: the infiltration product form is strictly monotone in
the temperature difference when the remaining factors are positive. -/
lemma infil_mono (v p q z d₁ d₂ : ℚ) (hc : 0 < v * p * q * z) (hd : d₁ < d₂) :
    v * p * q * d₁ * z / 3.6 < v * p * q * d₂ * z / 3.6 := by
  have h1 : ∀ d : ℚ, v * p * q * d * z / 3.6 = v * p * q * z / 3.6 * d := by
    intro d; ring
  rw [h1, h1]
  exact mul_lt_mul_of_pos_left hd (div_pos hc (by norm_num))

/-- Arithmetic helper: the door-load form is strictly monotone in the square
root of the temperature difference when the coefficient is positive. -/
lemma door_mono (x a k s₁ s₂ : ℚ) (hc : 0 < x * a * k) (hs : s₁ < s₂) :
    x * a * k * s₁ / 24 / 1000 < x * a * k * s₂ / 24 / 1000 := by
  have h1 : ∀ s : ℚ, x * a * k * s / 24 / 1000 = x * a * k / 24 / 1000 * s := by
    intro s; ring
  rw [h1, h1]
  exact mul_lt_mul_of_pos_left hs (div_pos (div_pos hc (by norm_num)) (by norm_num))

/-- C6, amended: holding all other inputs fixed, strictly increasing the
normalized external temperature strictly increases `transmissionLoad.total`,
`airInfiltrationLoad` and `doorLoad`, provided the temperature difference is
positive, the normalized room and door geometry is positive, the resolved
U-factor and the physical thermal constants are positive, and `Math.sqrt` is
strictly monotone on nonnegatives (which it is). -/
theorem externalTemp_strict_mono (sqrt : ℚ → ℚ) (th : ThermalData)
    (pt : ProductTable) (st : StorageTable) (r : RoomData)
    (c : ConditionsData) (e : Option ℚ) (p : ProductData)
    (hsqrt : ∀ a b : ℚ, 0 ≤ a → a < b → sqrt a < sqrt b)
    (hL : 0 < jsOrDefault r.length 5) (hW : 0 < jsOrDefault r.width 4)
    (hH : 0 < jsOrDefault r.height 3)
    (hDW : 0 < jsOrDefault r.doorWidth 1.2)
    (hDH : 0 < jsOrDefault r.doorHeight 2.1)
    (hDO : 0 < jsOrDefault r.doorOpenings 20)
    (hu : 0 < jsOrDefault (th.uFactors (jsStrOrDefault r.insulationType "PUF")
            (jsOrDefault r.insulationThickness 100)) 0.25)
    (hden : 0 < th.airDensity) (hsh : 0 < th.airSpecificHeat)
    (hrate : 0 < th.coldRoomAirChangeRate)
    (hpos : jsOrDefault c.internalTemp 4 < jsOrDefault c.externalTemp 35)
    (hinc : jsOrDefault c.externalTemp 35 < jsOrDefault e 35) :
    (calculateColdRoomLoad sqrt th pt st r c p).transmissionLoad.total
      < (calculateColdRoomLoad sqrt th pt st r
          ⟨e, c.internalTemp, c.operatingHours, c.pullDownTime⟩ p).transmissionLoad.total
    ∧ (calculateColdRoomLoad sqrt th pt st r c p).airInfiltrationLoad
      < (calculateColdRoomLoad sqrt th pt st r
          ⟨e, c.internalTemp, c.operatingHours, c.pullDownTime⟩ p).airInfiltrationLoad
    ∧ (calculateColdRoomLoad sqrt th pt st r c p).doorLoad
      < (calculateColdRoomLoad sqrt th pt st r
          ⟨e, c.internalTemp, c.operatingHours, c.pullDownTime⟩ p).doorLoad := by
  simp only [calculateColdRoomLoad]
  revert hL hW hH hDW hDH hDO hu hpos hinc
  generalize jsOrDefault (th.uFactors (jsStrOrDefault r.insulationType "PUF")
      (jsOrDefault r.insulationThickness 100)) 0.25 = u
  generalize jsOrDefault r.length 5 = L
  generalize jsOrDefault r.width 4 = W
  generalize jsOrDefault r.height 3 = H
  generalize jsOrDefault r.doorWidth 1.2 = DW
  generalize jsOrDefault r.doorHeight 2.1 = DH
  generalize jsOrDefault r.doorOpenings 20 = DO
  generalize jsOrDefault c.externalTemp 35 = e₁
  generalize jsOrDefault e 35 = e₂
  generalize jsOrDefault c.internalTemp 4 = i
  intro hL hW hH hDW hDH hDO hu hpos hinc
  have hd : e₁ - i < e₂ - i := by linarith
  refine ⟨?_, ?_, ?_⟩
  · have h1 : 0 < (L + W) * H := mul_pos (add_pos hL hW) hH
    have h2 : 0 < L * W := mul_pos hL hW
    have hc : 0 < u * (2 * (L + W) * H + L * W + L * W) := by
      apply mul_pos hu; nlinarith
    exact sum3_mul_lt u _ _ _ _ _ hc hd
  · have hc : 0 < L * W * H * th.airDensity * th.airSpecificHeat
        * th.coldRoomAirChangeRate :=
      mul_pos (mul_pos (mul_pos (mul_pos (mul_pos hL hW) hH) hden) hsh) hrate
    exact infil_mono _ _ _ _ _ _ hc hd
  · have hs : sqrt (e₁ - i) < sqrt (e₂ - i) := hsqrt _ _ (by linarith) hd
    have hc : 0 < DO * (DW * DH) * 3.0 :=
      mul_pos (mul_pos hDO (mul_pos hDW hDH)) (by norm_num)
    exact door_mono _ _ _ _ _ hc hs

/-- C6, counterexample: the claim as stated assumes only a positive
temperature difference, but the raw inputs admit a negative room length
(the string `"-5"` parses to `-5` and is truthy, so it is not defaulted);
then the surface areas are negative and increasing `externalTemp` from 35 to
36 strictly *decreases* `transmissionLoad.total`. -/
theorem externalTemp_mono_fails_negative_length :
    (0 : ℚ) < (calculateColdRoomLoad (fun q => q) sampleThermal samplePT
        sampleST { emptyRoom with length := some (-5) } emptyConditions
        emptyProductData).temperatureDifference
    ∧ (calculateColdRoomLoad (fun q => q) sampleThermal samplePT sampleST
        { emptyRoom with length := some (-5) }
        ⟨some 36, emptyConditions.internalTemp, emptyConditions.operatingHours,
          emptyConditions.pullDownTime⟩ emptyProductData).transmissionLoad.total
      < (calculateColdRoomLoad (fun q => q) sampleThermal samplePT sampleST
          { emptyRoom with length := some (-5) } emptyConditions
          emptyProductData).transmissionLoad.total := by
  constructor <;>
    norm_num [calculateColdRoomLoad, emptyRoom, emptyConditions,
      emptyProductData, jsOrDefault, jsStrOrDefault, sampleThermal]

/-- Witness for the amended C6 at concrete all-default inputs and
external temperature raised from 35 to 36. -/
theorem externalTemp_strict_mono_witness :
    (calculateColdRoomLoad (fun q => q) sampleThermal samplePT sampleST
        emptyRoom emptyConditions emptyProductData).transmissionLoad.total
      < (calculateColdRoomLoad (fun q => q) sampleThermal samplePT sampleST
          emptyRoom ⟨some 36, emptyConditions.internalTemp,
            emptyConditions.operatingHours, emptyConditions.pullDownTime⟩
          emptyProductData).transmissionLoad.total
    ∧ (calculateColdRoomLoad (fun q => q) sampleThermal samplePT sampleST
        emptyRoom emptyConditions emptyProductData).airInfiltrationLoad
      < (calculateColdRoomLoad (fun q => q) sampleThermal samplePT sampleST
          emptyRoom ⟨some 36, emptyConditions.internalTemp,
            emptyConditions.operatingHours, emptyConditions.pullDownTime⟩
          emptyProductData).airInfiltrationLoad
    ∧ (calculateColdRoomLoad (fun q => q) sampleThermal samplePT sampleST
        emptyRoom emptyConditions emptyProductData).doorLoad
      < (calculateColdRoomLoad (fun q => q) sampleThermal samplePT sampleST
          emptyRoom ⟨some 36, emptyConditions.internalTemp,
            emptyConditions.operatingHours, emptyConditions.pullDownTime⟩
          emptyProductData).doorLoad :=
  externalTemp_strict_mono (fun q => q) sampleThermal samplePT sampleST
    emptyRoom emptyConditions (some 36) emptyProductData
    (fun _ _ _ h => h)
    (by norm_num [emptyRoom, jsOrDefault])
    (by norm_num [emptyRoom, jsOrDefault])
    (by norm_num [emptyRoom, jsOrDefault])
    (by norm_num [emptyRoom, jsOrDefault])
    (by norm_num [emptyRoom, jsOrDefault])
    (by norm_num [emptyRoom, jsOrDefault])
    (by norm_num [sampleThermal, emptyRoom, jsOrDefault, jsStrOrDefault])
    (by norm_num [sampleThermal])
    (by norm_num [sampleThermal])
    (by norm_num [sampleThermal])
    (by norm_num [emptyConditions, jsOrDefault])
    (by norm_num [emptyConditions, jsOrDefault])

end ColdRoom
